import Mathlib

/-!
Shallow embedding of the spaced-repetition core of `src/app.py` (SQLite-backed
Streamlit study platform), together with proofs about the Scheduler
(`get_next_question_for_user`, lines 240-284), the Review Updater
(`update_srs`, lines 286-323), and the question-deletion path
(`show_manage_questions_page`, lines 510-514, with the schema from
`setup_database`, lines 26-94).

Modelling conventions:
- The SQLite database is a `DB` record of three lists mirroring the `users`,
  `questions` and `progress` tables.  The `PRIMARY KEY (username, question_id)`
  constraint on `progress` is reflected by the upsert operation, which
  overwrites the matching row when one exists and appends otherwise.
- Calendar dates (`DATE` column, `datetime.date`) are modelled as integers
  (day numbers); `today + datetime.timedelta(days = n)` becomes `today + n`.
  `datetime.date.today()` becomes an explicit `today : Int` parameter.
- SQLite `INTEGER` / Python `int` values are modelled as `Int`.
- `ORDER BY RANDOM() LIMIT 1` followed by `fetchone()` is modelled by an
  abstract selection function `choose : List Nat → Option Nat` passed as a
  parameter; theorems that depend on the selection assume only that `choose`
  picks a member of its argument when the argument is non-empty.
- Stateful functions are embedded in state-passing style: they take the `DB`
  and return the `DB` resulting from the SQL statements they execute, paired
  with their Python return value.
-/

/-- A row of the `questions` table (`setup_database`, lines 41-52). -/
structure Question where
  id : Nat
  owner_username : String
  enunciado : String
  opciones : String
  correcta : String
  retroalimentacion : String
  tag_categoria : Option String
  tag_tema : Option String
deriving DecidableEq, Repr

/-- A row of the `progress` table (`setup_database`, lines 55-65): the
per-(user, question) spaced-repetition review record. -/
structure ReviewRecord where
  username : String
  question_id : Nat
  due_date : Int
  interval : Int
  aciertos : Int
  fallos : Int
deriving DecidableEq, Repr

/-- A row of the `users` table (`setup_database`, lines 32-38). -/
structure User where
  username : String
  password_hash : String
  role : String
deriving DecidableEq, Repr

/-- The SQLite database state: the three tables of `setup_database`. -/
structure DB where
  users : List User
  questions : List Question
  progress : List ReviewRecord
deriving DecidableEq, Repr

/-- The `WHERE username = ? AND question_id = ?` condition used by
`update_srs` (line 291) and by the `ON CONFLICT(username, question_id)`
clause (line 315). -/
def progress_key_matches (username : String) (question_id : Nat)
    (p : ReviewRecord) : Bool :=
  p.username == username && p.question_id == question_id

/-- `SELECT * FROM progress WHERE username = ? AND question_id = ?` followed
by `fetchone()` (`update_srs`, lines 291-292); at most one row can match
thanks to the primary key, and `find?` returns it. -/
def get_progress (db : DB) (username : String) (question_id : Nat) :
    Option ReviewRecord :=
  db.progress.find? (progress_key_matches username question_id)

/-- Lines 295-298 of `update_srs`: the `(interval, aciertos, fallos)` triple
loaded from the matching `progress` row, or the default `(1, 0, 0)` when no
row exists. -/
def loaded_state (db : DB) (username : String) (question_id : Nat) :
    Int × Int × Int :=
  match get_progress db username question_id with
  | some p => (p.interval, p.aciertos, p.fallos)
  | none => (1, 0, 0)

/-- Lines 300-308 of `update_srs`: the `if/elif/elif` chain on `difficulty`.
The UI (lines 414-421) passes the Spanish labels: "fácil" is the spec's
easy, "medio" medium, "difícil" hard.  There is no `else` branch in the
source, so any other string leaves the triple unchanged. -/
def srs_transition (interval aciertos fallos : Int) (difficulty : String) :
    Int × Int × Int :=
  if difficulty = "fácil" then (interval * 2 + 7, aciertos + 1, fallos)
  else if difficulty = "medio" then (interval + 3, aciertos + 1, fallos)
  else if difficulty = "difícil" then (1, aciertos, fallos + 1)
  else (interval, aciertos, fallos)

/-- The `INSERT ... ON CONFLICT(username, question_id) DO UPDATE SET ...`
statement of `update_srs` (lines 312-320): overwrite the row with the
matching key if one exists, otherwise append the new row. -/
def upsert_progress (l : List ReviewRecord) (r : ReviewRecord) :
    List ReviewRecord :=
  if l.any (progress_key_matches r.username r.question_id) then
    l.map (fun p => if progress_key_matches r.username r.question_id p then r else p)
  else
    l ++ [r]

/-- `update_srs(username, question_id, difficulty)` (lines 286-323), the
spec's `record_answer`.  It loads (or defaults) the review state, applies
the difficulty transition, sets `new_due_date = today + interval`
(line 310, with the *new* interval), and upserts the row.  The Python
function has no `return` statement, so its return value is `None`: the
second component of the result is always `none`. -/
def update_srs (db : DB) (today : Int) (username : String)
    (question_id : Nat) (difficulty : String) : DB × Option ReviewRecord :=
  let s := loaded_state db username question_id
  let t := srs_transition s.1 s.2.1 s.2.2 difficulty
  let new_due_date := today + t.1
  let r : ReviewRecord :=
    ⟨username, question_id, new_due_date, t.1, t.2.1, t.2.2⟩
  ({ db with progress := upsert_progress db.progress r }, none)

/-- The due query of `get_next_question_for_user` (lines 262-267):
`SELECT q.id FROM questions q JOIN progress p ON q.id = p.question_id
WHERE p.username = ? AND p.due_date <= ?`. -/
def due_question_ids (db : DB) (today : Int) (username : String) : List Nat :=
  (db.questions.filter (fun q =>
    db.progress.any (fun p =>
      p.question_id == q.id && p.username == username
        && decide (p.due_date ≤ today)))).map (fun q => q.id)

/-- The unseen query of `get_next_question_for_user` (lines 275-280):
`SELECT q.id FROM questions q LEFT JOIN progress p ON q.id = p.question_id
AND p.username = ? WHERE p.question_id IS NULL`. -/
def unseen_question_ids (db : DB) (username : String) : List Nat :=
  (db.questions.filter (fun q =>
    ! db.progress.any (fun p =>
      p.question_id == q.id && p.username == username))).map (fun q => q.id)

/-- `get_next_question_for_user(username, practice_mode)` (lines 240-284),
the spec's `next_question`.  In practice mode it selects from
`SELECT id FROM questions` (lines 248-252); otherwise it tries the due
query and falls back to the unseen query.  `choose` stands for
`ORDER BY RANDOM() LIMIT 1` + `fetchone()`.  The function only executes
`SELECT` statements, so the database component of the result is the input
database. -/
def get_next_question_for_user (choose : List Nat → Option Nat) (db : DB)
    (today : Int) (username : String) (practice_mode : Bool) :
    DB × Option Nat :=
  if practice_mode then
    (db, choose (db.questions.map (fun q => q.id)))
  else
    match choose (due_question_ids db today username) with
    | some qid => (db, some qid)
    | none => (db, choose (unseen_question_ids db username))

/-- The delete action of `show_manage_questions_page` (line 511):
`DELETE FROM questions WHERE id = ?`.  The schema declares
`ON DELETE CASCADE` on `progress.question_id` (line 58), but SQLite only
enforces foreign-key clauses when the connection has executed
`PRAGMA foreign_keys = ON`, which `get_db_conn` (lines 20-24) never does;
hence the statement removes rows from `questions` only and the `progress`
table is untouched. -/
def delete_question (db : DB) (qid : Nat) : DB :=
  { db with questions := db.questions.filter (fun q => q.id != qid) }

/-- Some `questions` row has this id. -/
def question_exists (db : DB) (qid : Nat) : Prop :=
  ∃ q ∈ db.questions, q.id = qid

/-- The user has a `progress` row for this question whose due date is on or
before `today` (the spec's "due ReviewRecord"). -/
def has_due_record (db : DB) (today : Int) (username : String) (qid : Nat) :
    Prop :=
  ∃ p ∈ db.progress,
    p.username = username ∧ p.question_id = qid ∧ p.due_date ≤ today

/-- The question exists and is due for the user. -/
def is_due_question (db : DB) (today : Int) (username : String) (qid : Nat) :
    Prop :=
  question_exists db qid ∧ has_due_record db today username qid

/-- The question exists and the user has no `progress` row for it
(the spec's "unseen question"). -/
def is_unseen_question (db : DB) (username : String) (qid : Nat) : Prop :=
  question_exists db qid ∧
    ∀ p ∈ db.progress, ¬ (p.username = username ∧ p.question_id = qid)

/-- The empty database. -/
def db_empty : DB := ⟨[], [], []⟩

/-- A concrete question, id 1. -/
def sample_question : Question :=
  ⟨1, "ana", "Enunciado", "a|b|c|d", "a", "Retro", some "Urgencia", some "Tema"⟩

/-- A database where user `ana` has an immediately-due review record for
question 1 (due day 0, interval 1, no answers counted yet). -/
def db_one_due : DB := ⟨[], [sample_question], [⟨"ana", 1, 0, 1, 0, 0⟩]⟩

/-- A database where user `ana` has a review record for question 1 with
due day 0, interval 5, 2 correct and 3 incorrect answers. -/
def db_progress_538 : DB := ⟨[], [sample_question], [⟨"ana", 1, 0, 5, 2, 3⟩]⟩

/-- The row that `update_srs(db, today, u, q, d)` passes to its
`INSERT ... ON CONFLICT` statement (lines 310-320): the loaded-or-default
state pushed through the difficulty transition, with
`due_date = today + new interval`. -/
def srs_updated_record (db : DB) (today : Int) (u : String) (q : Nat)
    (d : String) : ReviewRecord :=
  ⟨u, q,
    today + (srs_transition (loaded_state db u q).1
      (loaded_state db u q).2.1 (loaded_state db u q).2.2 d).1,
    (srs_transition (loaded_state db u q).1
      (loaded_state db u q).2.1 (loaded_state db u q).2.2 d).1,
    (srs_transition (loaded_state db u q).1
      (loaded_state db u q).2.1 (loaded_state db u q).2.2 d).2.1,
    (srs_transition (loaded_state db u q).1
      (loaded_state db u q).2.1 (loaded_state db u q).2.2 d).2.2⟩

/-! ### Helper lemmas about the upsert and the candidate queries -/

theorem find?_map_overwrite {α} (pred : α → Bool) (r : α) (hr : pred r = true) :
    ∀ l : List α, l.any pred = true →
      (l.map (fun p => if pred p then r else p)).find? pred = some r := by
  intro l h
  induction l with
  | nil => simp at h
  | cons a t ih =>
    by_cases ha : pred a = true
    · simp [List.find?_cons, ha, hr]
    · have ha' : pred a = false := by simpa using ha
      simp only [List.any_cons, ha', Bool.false_or] at h
      simp [List.find?_cons, ha', ih h]

theorem find?_append_singleton {α} (pred : α → Bool) (r : α) (hr : pred r = true) :
    ∀ l : List α, l.any pred = false → (l ++ [r]).find? pred = some r := by
  intro l h
  induction l with
  | nil => simp [List.find?_cons, hr]
  | cons a t ih =>
    simp only [List.any_cons, Bool.or_eq_false_iff] at h
    simp [List.find?_cons, h.1, ih h.2]

theorem progress_key_matches_self (u : String) (q : Nat) (d i a f : Int) :
    progress_key_matches u q ⟨u, q, d, i, a, f⟩ = true := by
  simp [progress_key_matches]

/-- Looking up the upserted key retrieves exactly the upserted row. -/
theorem find?_upsert_progress (l : List ReviewRecord) (r : ReviewRecord) :
    (upsert_progress l r).find?
      (progress_key_matches r.username r.question_id) = some r := by
  unfold upsert_progress
  have hr : progress_key_matches r.username r.question_id r = true := by
    simp [progress_key_matches]
  by_cases h : l.any (progress_key_matches r.username r.question_id) = true
  · rw [if_pos h]
    exact find?_map_overwrite _ r hr l h
  · have h' : l.any (progress_key_matches r.username r.question_id) = false := by
      simpa using h
    rw [if_neg (by simp [h'])]
    exact find?_append_singleton _ r hr l h'

/-- Master lemma for the Review Updater: after `update_srs`, the stored row
for `(username, question_id)` is exactly the transitioned record, with
due date `today +` the new interval. -/
theorem get_progress_update_srs (db : DB) (today : Int) (u : String)
    (q : Nat) (d : String) :
    get_progress (update_srs db today u q d).1 u q =
      some (srs_updated_record db today u q d) := by
  unfold update_srs get_progress
  exact find?_upsert_progress db.progress (srs_updated_record db today u q d)

/-- A question id is produced by the due query exactly when the question
exists and the user has a due `progress` row for it. -/
theorem mem_due_question_ids (db : DB) (today : Int) (u : String) (qid : Nat) :
    qid ∈ due_question_ids db today u ↔ is_due_question db today u qid := by
  unfold due_question_ids is_due_question question_exists has_due_record
  simp only [List.mem_map, List.mem_filter, List.any_eq_true,
    Bool.and_eq_true, beq_iff_eq, decide_eq_true_eq]
  constructor
  · rintro ⟨q, ⟨hq, p, hp, ⟨hpq, hpu⟩, hpd⟩, rfl⟩
    exact ⟨⟨q, hq, rfl⟩, p, hp, hpu, hpq, hpd⟩
  · rintro ⟨⟨q, hq, rfl⟩, p, hp, hpu, hpq, hpd⟩
    exact ⟨q, ⟨hq, p, hp, ⟨hpq, hpu⟩, hpd⟩, rfl⟩

/-- A question id is produced by the unseen query exactly when the question
exists and the user has no `progress` row for it. -/
theorem mem_unseen_question_ids (db : DB) (u : String) (qid : Nat) :
    qid ∈ unseen_question_ids db u ↔ is_unseen_question db u qid := by
  unfold unseen_question_ids is_unseen_question question_exists
  simp only [List.mem_map, List.mem_filter, Bool.not_eq_true',
    List.any_eq_false, Bool.and_eq_true, beq_iff_eq]
  constructor
  · rintro ⟨q, ⟨hq, hnone⟩, rfl⟩
    exact ⟨⟨q, hq, rfl⟩, fun p hp hc => hnone p hp ⟨hc.2, hc.1⟩⟩
  · rintro ⟨⟨q, hq, rfl⟩, hnone⟩
    exact ⟨q, ⟨hq, fun p hp hc => hnone p hp ⟨hc.2, hc.1⟩⟩, rfl⟩

theorem due_question_ids_eq_nil_iff (db : DB) (today : Int) (u : String) :
    due_question_ids db today u = [] ↔
      ∀ qid, ¬ is_due_question db today u qid := by
  simp only [List.eq_nil_iff_forall_not_mem, mem_due_question_ids]

theorem unseen_question_ids_eq_nil_iff (db : DB) (u : String) :
    unseen_question_ids db u = [] ↔
      ∀ qid, ¬ is_unseen_question db u qid := by
  simp only [List.eq_nil_iff_forall_not_mem, mem_unseen_question_ids]

/-- A selection function that only returns members of its argument returns
`none` on the empty list. -/
theorem choose_nil_eq_none (choose : List Nat → Option Nat)
    (hmem : ∀ l x, choose l = some x → x ∈ l) : choose [] = none := by
  cases h : choose [] with
  | none => rfl
  | some x => exact absurd (hmem [] x h) (List.not_mem_nil x)

/-- With `practice_mode = False`, `get_next_question_for_user` returns the
result of the due query when it yields a row. -/
theorem get_next_standard_some (choose : List Nat → Option Nat) (db : DB)
    (today : Int) (u : String) (x : Nat)
    (hx : choose (due_question_ids db today u) = some x) :
    get_next_question_for_user choose db today u false = (db, some x) := by
  unfold get_next_question_for_user
  rw [if_neg Bool.false_ne_true, hx]

/-- With `practice_mode = False`, `get_next_question_for_user` falls back to
the unseen query when the due query yields no row. -/
theorem get_next_standard_none (choose : List Nat → Option Nat) (db : DB)
    (today : Int) (u : String)
    (hx : choose (due_question_ids db today u) = none) :
    get_next_question_for_user choose db today u false =
      (db, choose (unseen_question_ids db u)) := by
  unfold get_next_question_for_user
  rw [if_neg Bool.false_ne_true, hx]

/-- After `update_srs`, re-loading the review state for the same key yields
exactly the transitioned triple. -/
theorem loaded_state_update_srs (db : DB) (today : Int) (u : String)
    (q : Nat) (d : String) :
    loaded_state (update_srs db today u q d).1 u q =
      ((srs_transition (loaded_state db u q).1
          (loaded_state db u q).2.1 (loaded_state db u q).2.2 d).1,
        (srs_transition (loaded_state db u q).1
          (loaded_state db u q).2.1 (loaded_state db u q).2.2 d).2.1,
        (srs_transition (loaded_state db u q).1
          (loaded_state db u q).2.1 (loaded_state db u q).2.2 d).2.2) := by
  unfold loaded_state
  rw [get_progress_update_srs]
  rfl

/-- A due question is never an unseen question: being due requires a
`progress` row for the user, being unseen requires its absence. -/
theorem due_not_unseen (db : DB) (today : Int) (u : String) (qid : Nat)
    (h : is_due_question db today u qid) : ¬ is_unseen_question db u qid := by
  rintro ⟨-, hno⟩
  obtain ⟨-, p, hp, hpu, hpq, -⟩ := h
  exact hno p hp ⟨hpu, hpq⟩

/-! ### Claim theorems -/

/-- C1: for every difficulty in easy/medium/hard ("fácil"/"medio"/"difícil")
and every loaded-or-defaulted state `(i, c, f)` with `i ≥ 1`, `update_srs`
persists exactly: easy → interval `i*2+7`, correct `c+1`, incorrect `f`;
medium → interval `i+3`, correct `c+1`, incorrect `f`; hard → interval `1`,
correct `c`, incorrect `f+1`; and in every case the stored due date is
`today +` the new interval. -/
theorem C1_record_answer_transition_table (db : DB) (today : Int)
    (u : String) (q : Nat) (h : 1 ≤ (loaded_state db u q).1) :
    (get_progress (update_srs db today u q "fácil").1 u q =
      some ⟨u, q, today + ((loaded_state db u q).1 * 2 + 7),
        (loaded_state db u q).1 * 2 + 7, (loaded_state db u q).2.1 + 1,
        (loaded_state db u q).2.2⟩) ∧
    (get_progress (update_srs db today u q "medio").1 u q =
      some ⟨u, q, today + ((loaded_state db u q).1 + 3),
        (loaded_state db u q).1 + 3, (loaded_state db u q).2.1 + 1,
        (loaded_state db u q).2.2⟩) ∧
    (get_progress (update_srs db today u q "difícil").1 u q =
      some ⟨u, q, today + 1, 1, (loaded_state db u q).2.1,
        (loaded_state db u q).2.2 + 1⟩) := by
  refine ⟨?_, ?_, ?_⟩ <;>
    rw [get_progress_update_srs] <;>
      simp [srs_updated_record, srs_transition]

/-- Witness for C1 at a concrete state: user `ana`, question 1, loaded state
`(5, 2, 3)`, current day 50. -/
theorem C1_record_answer_transition_table_witness :
    (1 : Int) ≤ (loaded_state db_progress_538 "ana" 1).1 ∧
    get_progress (update_srs db_progress_538 50 "ana" 1 "fácil").1 "ana" 1 =
      some ⟨"ana", 1, 67, 17, 3, 3⟩ ∧
    get_progress (update_srs db_progress_538 50 "ana" 1 "medio").1 "ana" 1 =
      some ⟨"ana", 1, 58, 8, 3, 3⟩ ∧
    get_progress (update_srs db_progress_538 50 "ana" 1 "difícil").1 "ana" 1 =
      some ⟨"ana", 1, 51, 1, 2, 4⟩ := by
  obtain ⟨h1, h2, h3⟩ :=
    C1_record_answer_transition_table db_progress_538 50 "ana" 1 (by decide)
  exact ⟨by decide, h1.trans (by decide), h2.trans (by decide),
    h3.trans (by decide)⟩

/-- C5: `update_srs` compounds from the previously persisted state: two
successive "fácil" answers for the same `(user, question)` add 1 to the
correct-count each time, and the second interval is computed from the
interval persisted by the first call; from interval 1 the calls persist
intervals 9 and then 25. -/
theorem C5_record_answer_compounds (db : DB) (t1 t2 : Int) (u : String)
    (q : Nat) :
    loaded_state (update_srs db t1 u q "fácil").1 u q =
      ((loaded_state db u q).1 * 2 + 7, (loaded_state db u q).2.1 + 1,
        (loaded_state db u q).2.2) ∧
    loaded_state
        (update_srs (update_srs db t1 u q "fácil").1 t2 u q "fácil").1 u q =
      (((loaded_state db u q).1 * 2 + 7) * 2 + 7,
        (loaded_state db u q).2.1 + 1 + 1, (loaded_state db u q).2.2) ∧
    ((loaded_state db u q).1 = 1 →
      (loaded_state (update_srs db t1 u q "fácil").1 u q).1 = 9 ∧
      (loaded_state
        (update_srs (update_srs db t1 u q "fácil").1 t2 u q "fácil").1 u
          q).1 = 25) := by
  have h1 : loaded_state (update_srs db t1 u q "fácil").1 u q =
      ((loaded_state db u q).1 * 2 + 7, (loaded_state db u q).2.1 + 1,
        (loaded_state db u q).2.2) := by
    rw [loaded_state_update_srs]
    simp [srs_transition]
  have h2 : loaded_state
      (update_srs (update_srs db t1 u q "fácil").1 t2 u q "fácil").1 u q =
      (((loaded_state db u q).1 * 2 + 7) * 2 + 7,
        (loaded_state db u q).2.1 + 1 + 1, (loaded_state db u q).2.2) := by
    rw [loaded_state_update_srs, h1]
    simp [srs_transition]
  refine ⟨h1, h2, fun hone => ⟨?_, ?_⟩⟩
  · rw [h1]; rw [hone]; norm_num
  · rw [h2]; rw [hone]; norm_num

/-- Witness for C5 starting from the empty database (loaded state defaults
to interval 1): the two "fácil" calls persist intervals 9 then 25 and
correct-counts 1 then 2. -/
theorem C5_record_answer_compounds_witness :
    loaded_state (update_srs db_empty 0 "u" 1 "fácil").1 "u" 1 = (9, 1, 0) ∧
    loaded_state
      (update_srs (update_srs db_empty 0 "u" 1 "fácil").1 3 "u" 1
        "fácil").1 "u" 1 = (25, 2, 0) := by
  obtain ⟨h1, h2, h3⟩ := C5_record_answer_compounds db_empty 0 3 "u" 1
  exact ⟨h1.trans (by decide), h2.trans (by decide)⟩

/-- C6: when no `progress` row exists for `(username, question_id)`,
`update_srs` applies the transition to the default state
`interval = 1, aciertos = 0, fallos = 0` and inserts a row: the first
"fácil" answer stores interval 9, the first "medio" 4 and the first
"difícil" 1, each with due date `today +` that interval. -/
theorem C6_first_review_uses_defaults (db : DB) (today : Int) (u : String)
    (q : Nat) (habs : get_progress db u q = none) :
    get_progress (update_srs db today u q "fácil").1 u q =
      some ⟨u, q, today + 9, 9, 1, 0⟩ ∧
    get_progress (update_srs db today u q "medio").1 u q =
      some ⟨u, q, today + 4, 4, 1, 0⟩ ∧
    get_progress (update_srs db today u q "difícil").1 u q =
      some ⟨u, q, today + 1, 1, 0, 1⟩ := by
  have hls : loaded_state db u q = (1, 0, 0) := by
    unfold loaded_state
    rw [habs]
  refine ⟨?_, ?_, ?_⟩ <;>
    rw [get_progress_update_srs] <;>
      simp [srs_updated_record, srs_transition, hls]

/-- Witness for C6 on the empty database with current day 10. -/
theorem C6_first_review_uses_defaults_witness :
    get_progress (update_srs db_empty 10 "ana" 7 "fácil").1 "ana" 7 =
      some ⟨"ana", 7, 19, 9, 1, 0⟩ ∧
    get_progress (update_srs db_empty 10 "ana" 7 "medio").1 "ana" 7 =
      some ⟨"ana", 7, 14, 4, 1, 0⟩ ∧
    get_progress (update_srs db_empty 10 "ana" 7 "difícil").1 "ana" 7 =
      some ⟨"ana", 7, 11, 1, 0, 1⟩ := by
  obtain ⟨h1, h2, h3⟩ :=
    C6_first_review_uses_defaults db_empty 10 "ana" 7 (by decide)
  exact ⟨h1.trans (by decide), h2.trans (by decide), h3.trans (by decide)⟩

/-- C7 counterexample: the claim says `record_answer` returns the updated
ReviewRecord, but `update_srs` in the source has no `return` statement;
at a concrete valid call its Python return value is `None`. -/
theorem C7_returns_none_counterexample :
    (update_srs db_one_due 0 "ana" 1 "fácil").2 = none := rfl

/-- C7 amended: `update_srs` persists the updated ReviewRecord — after the
call the stored row for the key carries the transitioned interval and
counts and due date `today +` new interval — but the function itself
returns `None`, not the record. -/
theorem C7_persists_update_but_returns_none (db : DB) (today : Int)
    (u : String) (q : Nat) (d : String) :
    (update_srs db today u q d).2 = none ∧
    get_progress (update_srs db today u q d).1 u q =
      some ⟨u, q,
        today + (srs_transition (loaded_state db u q).1
          (loaded_state db u q).2.1 (loaded_state db u q).2.2 d).1,
        (srs_transition (loaded_state db u q).1
          (loaded_state db u q).2.1 (loaded_state db u q).2.2 d).1,
        (srs_transition (loaded_state db u q).1
          (loaded_state db u q).2.1 (loaded_state db u q).2.2 d).2.1,
        (srs_transition (loaded_state db u q).1
          (loaded_state db u q).2.1 (loaded_state db u q).2.2 d).2.2⟩ :=
  ⟨rfl, get_progress_update_srs db today u q d⟩

/-- C3 counterexample: with the stored record `(due 0, interval 5,
aciertos 2, fallos 3)` for `(ana, 1)`, calling `update_srs` on day 100 with
the out-of-range difficulty string "easy" is not rejected: the stored row's
due date moves from 0 to `100 + 5 = 105`, so the record is not "exactly the
same after the call as before it". -/
theorem C3_invalid_difficulty_counterexample :
    get_progress db_progress_538 "ana" 1 = some ⟨"ana", 1, 0, 5, 2, 3⟩ ∧
    get_progress (update_srs db_progress_538 100 "ana" 1 "easy").1 "ana" 1 =
      some ⟨"ana", 1, 105, 5, 2, 3⟩ ∧
    get_progress (update_srs db_progress_538 100 "ana" 1 "easy").1 "ana" 1 ≠
      get_progress db_progress_538 "ana" 1 := by
  refine ⟨by decide, ?_, by decide⟩
  exact (get_progress_update_srs db_progress_538 100 "ana" 1 "easy").trans
    (by decide)

/-- C3 amended: a difficulty outside "fácil"/"medio"/"difícil" falls through
the `if/elif` chain, so interval and both counts are unchanged — but the
upsert still runs: the stored due date is rewritten to `today +` the
(unchanged) loaded interval, and a default-derived row is inserted when the
pair had none. -/
theorem C3_invalid_difficulty_still_upserts (db : DB) (today : Int)
    (u : String) (q : Nat) (d : String) (h1 : d ≠ "fácil")
    (h2 : d ≠ "medio") (h3 : d ≠ "difícil") :
    get_progress (update_srs db today u q d).1 u q =
      some ⟨u, q, today + (loaded_state db u q).1, (loaded_state db u q).1,
        (loaded_state db u q).2.1, (loaded_state db u q).2.2⟩ := by
  rw [get_progress_update_srs]
  simp [srs_updated_record, srs_transition, h1, h2, h3]

/-- Witness for the amended C3 at the concrete counterexample input. -/
theorem C3_invalid_difficulty_still_upserts_witness :
    get_progress (update_srs db_progress_538 100 "ana" 1 "easy").1 "ana" 1 =
      some ⟨"ana", 1, 105, 5, 2, 3⟩ := by
  exact (C3_invalid_difficulty_still_upserts db_progress_538 100 "ana" 1
    "easy" (by decide) (by decide) (by decide)).trans (by decide)

/-- C2: in standard mode, `get_next_question_for_user` follows the strict
priority: whenever some question has a due ReviewRecord for the user it
returns such a (due, never unseen) question; otherwise whenever some
question is unseen for the user it returns an unseen one; otherwise it
returns `none`.  `choose` is any selection that returns a member of a
non-empty candidate list. -/
theorem C2_standard_mode_priority (choose : List Nat → Option Nat)
    (hmem : ∀ l x, choose l = some x → x ∈ l)
    (hsome : ∀ l, l ≠ [] → (choose l).isSome)
    (db : DB) (today : Int) (u : String) :
    ((∃ qid, is_due_question db today u qid) →
      ∃ qid, (get_next_question_for_user choose db today u false).2 = some qid
        ∧ is_due_question db today u qid ∧ ¬ is_unseen_question db u qid) ∧
    ((∀ qid, ¬ is_due_question db today u qid) →
      (∃ qid, is_unseen_question db u qid) →
      ∃ qid, (get_next_question_for_user choose db today u false).2 = some qid
        ∧ is_unseen_question db u qid) ∧
    ((∀ qid, ¬ is_due_question db today u qid) →
      (∀ qid, ¬ is_unseen_question db u qid) →
      (get_next_question_for_user choose db today u false).2 = none) := by
  refine ⟨?_, ?_, ?_⟩
  · rintro ⟨qid0, hdue0⟩
    have hne : due_question_ids db today u ≠ [] := by
      intro hnil
      rw [due_question_ids_eq_nil_iff] at hnil
      exact hnil qid0 hdue0
    obtain ⟨x, hx⟩ := Option.isSome_iff_exists.mp (hsome _ hne)
    have hxdue : is_due_question db today u x :=
      (mem_due_question_ids db today u x).mp (hmem _ _ hx)
    exact ⟨x, by rw [get_next_standard_some choose db today u x hx], hxdue,
      due_not_unseen db today u x hxdue⟩
  · intro hnodue hunseen
    have hdue_nil : due_question_ids db today u = [] :=
      (due_question_ids_eq_nil_iff db today u).mpr hnodue
    have hdue_none : choose (due_question_ids db today u) = none := by
      rw [hdue_nil]
      exact choose_nil_eq_none choose hmem
    obtain ⟨qid0, hq0⟩ := hunseen
    have hne : unseen_question_ids db u ≠ [] := by
      intro hnil
      rw [unseen_question_ids_eq_nil_iff] at hnil
      exact hnil qid0 hq0
    obtain ⟨x, hx⟩ := Option.isSome_iff_exists.mp (hsome _ hne)
    refine ⟨x, ?_, (mem_unseen_question_ids db u x).mp (hmem _ _ hx)⟩
    rw [get_next_standard_none choose db today u hdue_none]
    exact hx
  · intro hnodue hnounseen
    have hdue_nil : due_question_ids db today u = [] :=
      (due_question_ids_eq_nil_iff db today u).mpr hnodue
    have hdue_none : choose (due_question_ids db today u) = none := by
      rw [hdue_nil]
      exact choose_nil_eq_none choose hmem
    have hunseen_nil : unseen_question_ids db u = [] :=
      (unseen_question_ids_eq_nil_iff db u).mpr hnounseen
    rw [get_next_standard_none choose db today u hdue_none]
    rw [hunseen_nil]
    exact choose_nil_eq_none choose hmem

/-- Witness for C2 with the selection `List.head?` on a database where
question 1 is due for `ana` on day 0: the scheduler returns a due question. -/
theorem C2_standard_mode_priority_witness :
    ∃ qid,
      (get_next_question_for_user List.head? db_one_due 0 "ana" false).2 =
        some qid ∧ is_due_question db_one_due 0 "ana" qid ∧
        ¬ is_unseen_question db_one_due "ana" qid := by
  refine (C2_standard_mode_priority List.head? ?_ ?_ db_one_due 0 "ana").1
    ⟨1, ?_⟩
  · intro l x h
    cases l with
    | nil => simp at h
    | cons a t =>
      simp only [List.head?_cons, Option.some.injEq] at h
      exact h ▸ List.mem_cons_self a t
  · intro l hne
    cases l with
    | nil => exact absurd rfl hne
    | cons a t => simp
  · exact ⟨⟨sample_question, by simp [db_one_due], rfl⟩,
      ⟨"ana", 1, 0, 1, 0, 0⟩, by simp [db_one_due], rfl, rfl, by norm_num⟩

/-- C8: in practice mode, `get_next_question_for_user` returns some member
of the entire question set whenever that set is non-empty, and it returns
`none` if and only if the question set is empty.  The candidate set never
depends on the user's review state. -/
theorem C8_practice_mode_spec (choose : List Nat → Option Nat)
    (hmem : ∀ l x, choose l = some x → x ∈ l)
    (hsome : ∀ l, l ≠ [] → (choose l).isSome)
    (db : DB) (today : Int) (u : String) :
    (db.questions ≠ [] →
      ∃ qid, (get_next_question_for_user choose db today u true).2 = some qid
        ∧ question_exists db qid) ∧
    ((get_next_question_for_user choose db today u true).2 = none ↔
      db.questions = []) := by
  have hrun : (get_next_question_for_user choose db today u true).2 =
      choose (db.questions.map (fun q => q.id)) := rfl
  constructor
  · intro hq
    have hne : db.questions.map (fun q => q.id) ≠ [] := by
      simpa using hq
    obtain ⟨x, hx⟩ := Option.isSome_iff_exists.mp (hsome _ hne)
    have hxmem := hmem _ _ hx
    simp only [List.mem_map] at hxmem
    obtain ⟨qq, hqq, rfl⟩ := hxmem
    exact ⟨qq.id, by rw [hrun, hx], qq, hqq, rfl⟩
  · constructor
    · intro hnone
      by_contra hq
      have hne : db.questions.map (fun q => q.id) ≠ [] := by
        simpa using hq
      obtain ⟨x, hx⟩ := Option.isSome_iff_exists.mp (hsome _ hne)
      rw [hrun, hx] at hnone
      exact Option.noConfusion hnone
    · intro hq
      rw [hrun, hq]
      exact choose_nil_eq_none choose hmem

/-- Witness for C8 with the selection `List.head?` on a database with one
question: practice mode returns a member of the question set. -/
theorem C8_practice_mode_spec_witness :
    ∃ qid,
      (get_next_question_for_user List.head? db_one_due 0 "ana" true).2 =
        some qid ∧ question_exists db_one_due qid := by
  refine (C8_practice_mode_spec List.head? ?_ ?_ db_one_due 0 "ana").1 ?_
  · intro l x h
    cases l with
    | nil => simp at h
    | cons a t =>
      simp only [List.head?_cons, Option.some.injEq] at h
      exact h ▸ List.mem_cons_self a t
  · intro l hne
    cases l with
    | nil => exact absurd rfl hne
    | cons a t => simp
  · simp [db_one_due]

/-- C9: `get_next_question_for_user` is read-only: for every username and
both practice-mode values it executes only `SELECT` statements, so the
resulting database — its `users`, `questions` and `progress` tables — is
the input database. -/
theorem C9_next_question_read_only (choose : List Nat → Option Nat)
    (db : DB) (today : Int) (u : String) (pm : Bool) :
    (get_next_question_for_user choose db today u pm).1 = db ∧
    (get_next_question_for_user choose db today u pm).1.users = db.users ∧
    (get_next_question_for_user choose db today u pm).1.questions
      = db.questions ∧
    (get_next_question_for_user choose db today u pm).1.progress
      = db.progress := by
  have hdb : (get_next_question_for_user choose db today u pm).1 = db := by
    cases pm with
    | false =>
      cases hx : choose (due_question_ids db today u) with
      | none => rw [get_next_standard_none choose db today u hx]
      | some x => rw [get_next_standard_some choose db today u x hx]
    | true => rfl
  exact ⟨hdb, by rw [hdb], by rw [hdb], by rw [hdb]⟩

/-- C10: the practice branch never reads the caller's review records: for
any two usernames (and any two current dates) the practice-mode call is
literally the same selection over `SELECT id FROM questions`, so both
callers get the identical result. -/
theorem C10_practice_mode_user_independent (choose : List Nat → Option Nat)
    (db : DB) (t1 t2 : Int) (u1 u2 : String) :
    get_next_question_for_user choose db t1 u1 true =
      get_next_question_for_user choose db t2 u2 true ∧
    (get_next_question_for_user choose db t1 u1 true).2 =
      choose (db.questions.map (fun q => q.id)) :=
  ⟨rfl, rfl⟩

/-- C4: the claim says deleting a question removes every ReviewRecord
referencing it.  The code intends this (the schema's `ON DELETE CASCADE`,
and the comment in `delete_user_from_db` relying on it), but the SQLite
connection never enables foreign-key enforcement, so the cascade clause is
inert: at the concrete input below, after deleting question 1 its
`progress` row survives and now references a nonexistent question. -/
theorem C4_delete_question_leaves_orphan_progress :
    (delete_question db_one_due 1).questions = [] ∧
    ¬ question_exists (delete_question db_one_due 1) 1 ∧
    ∃ p ∈ (delete_question db_one_due 1).progress, p.question_id = 1 := by
  have hq : (delete_question db_one_due 1).questions = [] := by decide
  refine ⟨hq, ?_, ⟨"ana", 1, 0, 1, 0, 0⟩, by decide, rfl⟩
  rintro ⟨qq, hqq, -⟩
  rw [hq] at hqq
  exact absurd hqq (List.not_mem_nil qq)
